import Mathlib

/-!
Verification of the embed-author builder (`src/author.rs`).

The builder is a tuple struct `EmbedAuthorBuilder(EmbedAuthor)` whose setter
methods (`icon_url`, `name`, `url`) each consume the builder, `replace` one
field of the inner record with `Some` of the argument, and return the builder;
`build` unwraps the inner record.  We embed the record, the builder and its
operations directly, model arbitrary call sequences as lists of operations,
and prove the spec's claims about them.
-/

namespace EmbedBuilderVerif

/-- The `EmbedAuthor` record from `twilight_model`, as used by `author.rs`:
four optional string fields. -/
structure EmbedAuthor where
  icon_url : Option String
  name : Option String
  proxy_icon_url : Option String
  url : Option String
deriving DecidableEq, Repr

/-- Modelled from the spec: the `ImageSource` type (`image_source.rs`, not in
scope) is an opaque, already-resolved image-source value wrapping its
underlying URL string, accessed as `.0` in `author.rs` (`image_source.0`). -/
structure ImageSource where
  val : String
deriving DecidableEq, Repr

/-- The builder: a tuple struct wrapping an `EmbedAuthor`
(`pub struct EmbedAuthorBuilder(EmbedAuthor)`). -/
structure EmbedAuthorBuilder where
  author : EmbedAuthor
deriving DecidableEq, Repr

/-- `impl Default for EmbedAuthorBuilder`: every field of the inner record is
`None`. -/
def EmbedAuthorBuilder.default : EmbedAuthorBuilder :=
  ⟨{ icon_url := none, name := none, proxy_icon_url := none, url := none }⟩

/-- `EmbedAuthorBuilder::new`: `Self::default()`. -/
def EmbedAuthorBuilder.new : EmbedAuthorBuilder :=
  EmbedAuthorBuilder.default

/-- `EmbedAuthorBuilder::build`: consumes the builder and returns the inner
record (`self.0`), with no validation and no failure path. -/
def EmbedAuthorBuilder.build (b : EmbedAuthorBuilder) : EmbedAuthor :=
  b.author

/-- `EmbedAuthorBuilder::icon_url`: `self.0.icon_url.replace(image_source.0)`;
Rust's `Option::replace` stores `Some` of the new value unconditionally. -/
def EmbedAuthorBuilder.icon_url (b : EmbedAuthorBuilder)
    (image_source : ImageSource) : EmbedAuthorBuilder :=
  ⟨{ b.author with icon_url := some image_source.val }⟩

/-- `EmbedAuthorBuilder::name` / `_name`: `self.0.name.replace(name)`. -/
def EmbedAuthorBuilder.name (b : EmbedAuthorBuilder) (s : String) :
    EmbedAuthorBuilder :=
  ⟨{ b.author with name := some s }⟩

/-- `EmbedAuthorBuilder::url` / `_url`: `self.0.url.replace(url)`. -/
def EmbedAuthorBuilder.url (b : EmbedAuthorBuilder) (s : String) :
    EmbedAuthorBuilder :=
  ⟨{ b.author with url := some s }⟩

/-- `impl From<EmbedAuthorBuilder> for EmbedAuthor`: `builder.build()`. -/
def EmbedAuthor.ofBuilder (builder : EmbedAuthorBuilder) : EmbedAuthor :=
  builder.build

/-- One configuration call on the builder (the three public setters). -/
inductive BuilderOp where
  | setIconUrl (src : ImageSource)
  | setName (s : String)
  | setUrl (s : String)
deriving DecidableEq, Repr

/-- Apply a single configuration call. -/
def applyOp (b : EmbedAuthorBuilder) : BuilderOp → EmbedAuthorBuilder
  | .setIconUrl src => b.icon_url src
  | .setName s => b.name s
  | .setUrl s => b.url s

/-- Apply a whole sequence of configuration calls, left to right. -/
def applyOps (b : EmbedAuthorBuilder) (ops : List BuilderOp) :
    EmbedAuthorBuilder :=
  ops.foldl applyOp b

/-- First-some choice on options (`a` overrides `fallback`). -/
def optOr (a fallback : Option String) : Option String :=
  match a with
  | some v => some v
  | none => fallback

/-- The value of the last `icon_url` call in a sequence, if any. -/
def lastIconUrl : List BuilderOp → Option String
  | [] => none
  | op :: rest =>
    optOr (lastIconUrl rest)
      (match op with
       | .setIconUrl src => some src.val
       | _ => none)

/-- The value of the last `name` call in a sequence, if any. -/
def lastName : List BuilderOp → Option String
  | [] => none
  | op :: rest =>
    optOr (lastName rest)
      (match op with
       | .setName s => some s
       | _ => none)

/-- The value of the last `url` call in a sequence, if any. -/
def lastUrl : List BuilderOp → Option String
  | [] => none
  | op :: rest =>
    optOr (lastUrl rest)
      (match op with
       | .setUrl s => some s
       | _ => none)

lemma optOr_none_right (a : Option String) : optOr a none = a := by
  cases a <;> rfl

lemma applyOps_author (ops : List BuilderOp) (b : EmbedAuthorBuilder) :
    (applyOps b ops).author =
      { icon_url := optOr (lastIconUrl ops) b.author.icon_url
        name := optOr (lastName ops) b.author.name
        proxy_icon_url := b.author.proxy_icon_url
        url := optOr (lastUrl ops) b.author.url } := by
  induction ops generalizing b with
  | nil => rfl
  | cons op rest ih =>
    rw [show applyOps b (op :: rest) = applyOps (applyOp b op) rest from rfl,
      ih]
    cases op <;>
      simp only [applyOp, EmbedAuthorBuilder.icon_url, EmbedAuthorBuilder.name,
        EmbedAuthorBuilder.url, lastIconUrl, lastName, lastUrl] <;>
      cases hI : lastIconUrl rest <;> cases hN : lastName rest <;>
      cases hU : lastUrl rest <;> rfl

/-- Modelled from the spec: UTF-16 code-unit length of a string (a character
below 0x10000 occupies one code unit, any other occupies two), the measure the
external assembler's author-name limit is stated in. -/
def utf16Len (s : String) : Nat :=
  s.data.foldl (fun n c => n + (if c.toNat < 65536 then 1 else 2)) 0

/-- Modelled from the spec: the error kinds the external embed assembler
reports for an invalid author name (`EmbedError`, not in scope). -/
inductive EmbedError where
  | authorNameEmpty
  | authorNameTooLong
deriving DecidableEq, Repr

/-- The maximum author-name length in UTF-16 code units
(`EmbedBuilder::AUTHOR_NAME_LENGTH_LIMIT`). -/
def AUTHOR_NAME_LENGTH_LIMIT : Nat := 256

/-- Modelled from the spec: the external embed assembler's author-name
validation (part of `EmbedBuilder::build`, not in scope): when a name is
present it must be non-empty and at most 256 UTF-16 code units. -/
def validateAuthorName (a : EmbedAuthor) : Except EmbedError Unit :=
  match a.name with
  | none => .ok ()
  | some n =>
    if n = "" then .error .authorNameEmpty
    else if AUTHOR_NAME_LENGTH_LIMIT < utf16Len n then
      .error .authorNameTooLong
    else .ok ()

/-- C1: for every sequence of builder operations starting from a fresh builder
and ending in `build`, the built record's `proxy_icon_url` field is `none`:
no builder operation can ever set it. -/
theorem C1_proxy_icon_url_never_set (ops : List BuilderOp) :
    (applyOps EmbedAuthorBuilder.new ops).build.proxy_icon_url = none := by
  rw [EmbedAuthorBuilder.build, applyOps_author]
  rfl

/-- C2: for any sequence of configuration calls on a fresh builder followed by
`build`, each settable field of the built record equals the argument of the
last call that set it, and is `none` when no call in the sequence set it
(last write wins, setters leave the other fields unchanged). -/
theorem C2_last_write_wins (ops : List BuilderOp) :
    (applyOps EmbedAuthorBuilder.new ops).build.icon_url = lastIconUrl ops ∧
    (applyOps EmbedAuthorBuilder.new ops).build.name = lastName ops ∧
    (applyOps EmbedAuthorBuilder.new ops).build.url = lastUrl ops := by
  refine ⟨?_, ?_, ?_⟩ <;>
    simp only [EmbedAuthorBuilder.build, applyOps_author] <;>
    exact optOr_none_right _

/-- C3: building a freshly created builder yields the record with every field
(`icon_url`, `name`, `proxy_icon_url`, `url`) equal to `none`. -/
theorem C3_fresh_build_all_none :
    EmbedAuthorBuilder.new.build =
      { icon_url := none, name := none, proxy_icon_url := none,
        url := none } :=
  rfl

/-- C4: `build` is a total function that returns exactly the accumulated
record for every builder state, with no validation and no failure path. -/
theorem C4_build_pure_shape_conversion (b : EmbedAuthorBuilder) :
    b.build = b.author :=
  rfl

/-- C5: for every builder state and every resolved image source, `icon_url`
stores `some` of the source's underlying URL string into the record's
`icon_url` field, leaves the other fields unchanged, and overwrites any
previously set icon. -/
theorem C5_icon_url_stores_source (b : EmbedAuthorBuilder)
    (src : ImageSource) :
    (b.icon_url src).author = { b.author with icon_url := some src.val } :=
  rfl

/-- C6: the concrete round trip: fresh builder, icon from the resolved source
for "https://example.com/1.png", name "an author", url "https://example.com",
then `build`, yields exactly the expected record. -/
theorem C6_round_trip :
    (((EmbedAuthorBuilder.new.icon_url
          ⟨"https://example.com/1.png"⟩).name "an author").url
        "https://example.com").build =
      { icon_url := some "https://example.com/1.png",
        name := some "an author",
        proxy_icon_url := none,
        url := some "https://example.com" } :=
  rfl

/-- C7: `new` and the default-construction path produce equal builders, hence
records comparing equal, and stay equal under every further use. -/
theorem C7_new_eq_default :
    EmbedAuthorBuilder.new = EmbedAuthorBuilder.default ∧
    EmbedAuthorBuilder.new.build = EmbedAuthorBuilder.default.build ∧
    ∀ ops : List BuilderOp,
      (applyOps EmbedAuthorBuilder.new ops).build =
        (applyOps EmbedAuthorBuilder.default ops).build :=
  ⟨rfl, rfl, fun _ => rfl⟩

/-- C8: for every string, the `name` setter stores it as an explicitly present
value `some text`; in particular the empty string yields `some ""`, which is
distinguishable from the unset state `none`; no length or emptiness check is
performed at this layer. -/
theorem C8_name_stores_some (b : EmbedAuthorBuilder) (text : String) :
    (b.name text).author = { b.author with name := some text } ∧
    (b.name "").author.name = some "" ∧
    (b.name "").author.name ≠ none :=
  ⟨rfl, rfl, by simp [EmbedAuthorBuilder.name]⟩

set_option maxRecDepth 8000 in
/-- C9: submitting built records to the (spec-modelled) external assembler:
a 256-character name is accepted, a 257-character name is rejected with the
"author name too long" error kind, and an empty name is rejected with the
"author name empty" error kind. -/
theorem C9_assembler_name_boundaries :
    validateAuthorName
        (EmbedAuthorBuilder.new.name
          (String.mk (List.replicate 256 'a'))).build = .ok () ∧
    validateAuthorName
        (EmbedAuthorBuilder.new.name
          (String.mk (List.replicate 257 'a'))).build =
      .error .authorNameTooLong ∧
    validateAuthorName (EmbedAuthorBuilder.new.name "").build =
      .error .authorNameEmpty := by
  refine ⟨?_, ?_, rfl⟩ <;> rfl

/-- C10: converting a builder via the `From` instance for `EmbedAuthor` yields
exactly the same record as calling `build` on it. -/
theorem C10_from_eq_build (b : EmbedAuthorBuilder) :
    EmbedAuthor.ofBuilder b = b.build :=
  rfl

end EmbedBuilderVerif
